import Mathlib

/-!
Shallow embedding of `src/app.py` (repository LouG4/stockMarket).

Python floats are modelled as rationals (ℚ); Python lists as `List ℚ`.
A Python function that can raise an uncaught exception is modelled as
returning `Except String α`, the string being the exception message.
Python negative indexing and slicing are modelled by `pyIndex`,
`pySliceFromNeg` and `pySlicePrev` below, faithful to CPython semantics
(in particular `xs[-0:]` is the whole list, since `-0 == 0`).
The five configuration windows are Python ints used only non-negatively
by the claims; they are modelled as ℕ.
-/

/-- The `TradeResult` dataclass of `app.py` (fields in source order,
with the source defaults `shares_traded = cash_balance = shares_held = 0`). -/
structure TradeResult where
  action : String
  message : String
  shares_traded : ℚ := 0
  cash_balance : ℚ := 0
  shares_held : ℚ := 0
deriving DecidableEq, Repr

deriving instance DecidableEq for Except

/-- `average(nums)` from `app.py`: raises `ValueError` on the empty list,
otherwise returns `sum(nums) / len(nums)`. -/
def average (nums : List ℚ) : Except String ℚ :=
  if nums = [] then Except.error ("Cannot average an empty list.")
  else Except.ok (nums.sum / (nums.length : ℚ))

/-- Python built-in `max` over a list: raises `ValueError` on the empty
list, otherwise the maximum element. -/
def listMax (xs : List ℚ) : Except String ℚ :=
  match xs with
  | [] => Except.error ("max() arg is an empty sequence")
  | x :: rest => Except.ok (rest.foldl max x)

/-- Python `xs[i]` for an arbitrary integer index: a negative `i` counts
from the end; an out-of-range index raises `IndexError`. -/
def pyIndex (xs : List ℚ) (i : ℤ) : Except String ℚ :=
  let j : ℤ := if i < 0 then (xs.length : ℤ) + i else i
  if 0 ≤ j ∧ j < (xs.length : ℤ) then Except.ok (xs.getD j.toNat 0)
  else Except.error ("list index out of range")

/-- Python `xs[-k:]` for a natural `k`: the trailing `min k (length xs)`
elements when `k ≥ 1`, and the whole list when `k = 0` (because `-0 == 0`). -/
def pySliceFromNeg (xs : List ℚ) (k : ℕ) : List ℚ :=
  if k = 0 then xs else xs.drop (xs.length - k)

/-- Python `xs[-(b+1):-1]`: the at most `b` elements immediately preceding
the last one (empty when `b = 0` or the list has fewer than 2 elements). -/
def pySlicePrev (xs : List ℚ) (b : ℕ) : List ℚ :=
  (xs.take (xs.length - 1)).drop (xs.length - (b + 1))

/-- `min_prices_needed` from `app.py` line 65:
`max(breakout_lookback + 1, long_window, short_window, momentum_days + 1)`. -/
def min_prices_needed (breakout_lookback long_window short_window momentum_days : ℕ) : ℕ :=
  max (max (breakout_lookback + 1) long_window) (max short_window (momentum_days + 1))

/-- `min_vols_needed` from `app.py` line 66: `max(vol_lookback, 1)`. -/
def min_vols_needed (vol_lookback : ℕ) : ℕ :=
  max vol_lookback 1

/-- `run_strategy` from `app.py`, lines 22..135, with the five keyword
windows as explicit trailing arguments (defaults packaged separately in
`run_strategy_default`).  An uncaught Python exception is `Except.error`. -/
def run_strategy (prices volumes : List ℚ) (cash_balance shares_held : ℚ)
    (breakout_lookback vol_lookback short_window long_window momentum_days : ℕ) :
    Except String TradeResult :=
  if prices.length ≠ volumes.length then
    Except.ok { action := "STOP", message := "Prices and volumes must be the same length",
                cash_balance := cash_balance, shares_held := shares_held }
  else if cash_balance < 0 ∨ shares_held < 0 then
    Except.ok { action := "STOP", message := "cash_balance and shares_held must be non-negative",
                cash_balance := cash_balance, shares_held := shares_held }
  else if prices.length < min_prices_needed breakout_lookback long_window short_window momentum_days
       ∨ volumes.length < min_vols_needed vol_lookback then
    Except.ok { action := "STOP",
                message := "Not enough data (need at least "
                  ++ toString (min_prices_needed breakout_lookback long_window short_window momentum_days)
                  ++ " prices and " ++ toString (min_vols_needed vol_lookback) ++ " volumes)",
                cash_balance := cash_balance, shares_held := shares_held }
  else do
    let current_price ← pyIndex prices (-1)
    let last_volume ← pyIndex volumes (-1)
    let avg_volume_n ← average (pySliceFromNeg volumes vol_lookback)
    let recent_high_prev_n ← listMax (pySlicePrev prices breakout_lookback)
    let short_ma ← average (pySliceFromNeg prices short_window)
    let long_ma ← average (pySliceFromNeg prices long_window)
    let price_momentum_ago ← pyIndex prices (-((momentum_days : ℤ) + 1))
    let momentum_n := current_price - price_momentum_ago
    if shares_held = 0 ∧ current_price > recent_high_prev_n
        ∧ last_volume > 2 * avg_volume_n ∧ momentum_n > 0 then
      if current_price ≤ 0 then
        Except.ok { action := "STOP", message := "Invalid current price (must be > 0) for buying",
                    cash_balance := cash_balance, shares_held := shares_held }
      else
        Except.ok { action := "BUY", message := "ALL-IN BUY on breakout",
                    shares_traded := cash_balance / current_price,
                    cash_balance := 0, shares_held := cash_balance / current_price }
    else if shares_held > 0 ∧ short_ma < long_ma then
      Except.ok { action := "SELL", message := "SELL due to trend reversal",
                  shares_traded := shares_held,
                  cash_balance := shares_held * current_price, shares_held := 0 }
    else
      Except.ok { action := "HOLD", message := "Holding position",
                  cash_balance := cash_balance, shares_held := shares_held }

/-- `run_strategy` at the source's keyword defaults
`breakout_lookback=20, vol_lookback=20, short_window=5, long_window=15, momentum_days=5`. -/
def run_strategy_default (prices volumes : List ℚ) (cash_balance shares_held : ℚ) :
    Except String TradeResult :=
  run_strategy prices volumes cash_balance shares_held 20 20 5 15 5

/-- Total (default-valued) mean, agreeing with `average` on nonempty lists. -/
def averageD (xs : List ℚ) : ℚ := xs.sum / (xs.length : ℚ)

/-- Total (default-valued) maximum, agreeing with `listMax` on nonempty lists. -/
def listMaxD (xs : List ℚ) : ℚ :=
  match xs with
  | [] => 0
  | x :: rest => rest.foldl max x

/-- `prices[-1]`, the current (last) price, as a total function. -/
def currentPrice (xs : List ℚ) : ℚ := xs.getD (xs.length - 1) 0

/-- The source's `recent_high_prev_n`: maximum of the `breakout_lookback`
prices immediately preceding the current one. -/
def recent_high_prev_n (prices : List ℚ) (breakout_lookback : ℕ) : ℚ :=
  listMaxD (pySlicePrev prices breakout_lookback)

/-- The source's `avg_volume_n`: mean of the trailing `vol_lookback` volumes. -/
def avg_volume_n (volumes : List ℚ) (vol_lookback : ℕ) : ℚ :=
  averageD (pySliceFromNeg volumes vol_lookback)

/-- The source's `short_ma`: mean of the trailing `short_window` prices. -/
def short_ma (prices : List ℚ) (short_window : ℕ) : ℚ :=
  averageD (pySliceFromNeg prices short_window)

/-- The source's `long_ma`: mean of the trailing `long_window` prices. -/
def long_ma (prices : List ℚ) (long_window : ℕ) : ℚ :=
  averageD (pySliceFromNeg prices long_window)

/-- The source's `momentum_n`: current price minus the price
`momentum_days` observations earlier. -/
def momentum_n (prices : List ℚ) (momentum_days : ℕ) : ℚ :=
  currentPrice prices - prices.getD (prices.length - (momentum_days + 1)) 0

/-- The decision core of `run_strategy` once all indicator computations
are known to succeed: the three ordered rules of `app.py` lines 88..135. -/
def tradeCore (prices volumes : List ℚ) (cash_balance shares_held : ℚ)
    (breakout_lookback vol_lookback short_window long_window momentum_days : ℕ) :
    TradeResult :=
  if shares_held = 0 ∧ currentPrice prices > recent_high_prev_n prices breakout_lookback
      ∧ currentPrice volumes > 2 * avg_volume_n volumes vol_lookback
      ∧ momentum_n prices momentum_days > 0 then
    if currentPrice prices ≤ 0 then
      { action := "STOP", message := "Invalid current price (must be > 0) for buying",
        cash_balance := cash_balance, shares_held := shares_held }
    else
      { action := "BUY", message := "ALL-IN BUY on breakout",
        shares_traded := cash_balance / currentPrice prices,
        cash_balance := 0, shares_held := cash_balance / currentPrice prices }
  else if shares_held > 0 ∧ short_ma prices short_window < long_ma prices long_window then
    { action := "SELL", message := "SELL due to trend reversal",
      shares_traded := shares_held,
      cash_balance := shares_held * currentPrice prices, shares_held := 0 }
  else
    { action := "HOLD", message := "Holding position",
      cash_balance := cash_balance, shares_held := shares_held }

/-- The C8 variant of `run_strategy`: identical in every respect except
that the SELL rule is evaluated before the BUY rule (the non-positive
price STOP guard stays inside the BUY branch). -/
def run_strategy_sell_first (prices volumes : List ℚ) (cash_balance shares_held : ℚ)
    (breakout_lookback vol_lookback short_window long_window momentum_days : ℕ) :
    Except String TradeResult :=
  if prices.length ≠ volumes.length then
    Except.ok { action := "STOP", message := "Prices and volumes must be the same length",
                cash_balance := cash_balance, shares_held := shares_held }
  else if cash_balance < 0 ∨ shares_held < 0 then
    Except.ok { action := "STOP", message := "cash_balance and shares_held must be non-negative",
                cash_balance := cash_balance, shares_held := shares_held }
  else if prices.length < min_prices_needed breakout_lookback long_window short_window momentum_days
       ∨ volumes.length < min_vols_needed vol_lookback then
    Except.ok { action := "STOP",
                message := "Not enough data (need at least "
                  ++ toString (min_prices_needed breakout_lookback long_window short_window momentum_days)
                  ++ " prices and " ++ toString (min_vols_needed vol_lookback) ++ " volumes)",
                cash_balance := cash_balance, shares_held := shares_held }
  else do
    let current_price ← pyIndex prices (-1)
    let last_volume ← pyIndex volumes (-1)
    let avg_volume_n ← average (pySliceFromNeg volumes vol_lookback)
    let recent_high_prev_n ← listMax (pySlicePrev prices breakout_lookback)
    let short_ma ← average (pySliceFromNeg prices short_window)
    let long_ma ← average (pySliceFromNeg prices long_window)
    let price_momentum_ago ← pyIndex prices (-((momentum_days : ℤ) + 1))
    let momentum_n := current_price - price_momentum_ago
    if shares_held > 0 ∧ short_ma < long_ma then
      Except.ok { action := "SELL", message := "SELL due to trend reversal",
                  shares_traded := shares_held,
                  cash_balance := shares_held * current_price, shares_held := 0 }
    else if shares_held = 0 ∧ current_price > recent_high_prev_n
        ∧ last_volume > 2 * avg_volume_n ∧ momentum_n > 0 then
      if current_price ≤ 0 then
        Except.ok { action := "STOP", message := "Invalid current price (must be > 0) for buying",
                    cash_balance := cash_balance, shares_held := shares_held }
      else
        Except.ok { action := "BUY", message := "ALL-IN BUY on breakout",
                    shares_traded := cash_balance / current_price,
                    cash_balance := 0, shares_held := cash_balance / current_price }
    else
      Except.ok { action := "HOLD", message := "Holding position",
                  cash_balance := cash_balance, shares_held := shares_held }

/-- The demo driver data of `main()` in `app.py` (prices). -/
def demoPrices : List ℚ :=
  [100, 101, 99, 102, 103, 104, 103, 105, 106, 107,
   108, 109, 110, 111, 110, 112, 113, 114, 115, 116, 118]

/-- The demo driver data of `main()` in `app.py` (volumes). -/
def demoVolumes : List ℚ :=
  [1000, 1100, 900, 1200, 1300, 1250, 1400, 1500, 1600, 1550,
   1700, 1800, 1750, 1900, 1850, 2000, 2100, 2200, 2300, 2400, 6000]

/-! Helper lemmas. -/

theorem ok_bind {α β : Type} (a : α) (f : α → Except String β) :
    (Except.ok a : Except String α) >>= f = f a := rfl

theorem error_bind {α β : Type} (e : String) (f : α → Except String β) :
    (Except.error e : Except String α) >>= f = Except.error e := rfl

theorem average_ok (xs : List ℚ) (h : xs ≠ []) :
    average xs = Except.ok (averageD xs) := by
  simp [average, averageD, h]

theorem listMax_ok (xs : List ℚ) (h : xs ≠ []) :
    listMax xs = Except.ok (listMaxD xs) := by
  cases xs with
  | nil => exact absurd rfl h
  | cons x rest => rfl

theorem pyIndex_last_ok (xs : List ℚ) (h : 1 ≤ xs.length) :
    pyIndex xs (-1) = Except.ok (currentPrice xs) := by
  unfold pyIndex currentPrice
  have h1 : ((-1 : ℤ) < 0) := by omega
  have h2 : (0 : ℤ) ≤ (xs.length : ℤ) + (-1) ∧ (xs.length : ℤ) + (-1) < (xs.length : ℤ) :=
    ⟨by omega, by omega⟩
  simp only [h1, if_true, h2, and_self, if_pos]
  have h3 : ((xs.length : ℤ) + (-1)).toNat = xs.length - 1 := by omega
  rw [h3]

theorem pyIndex_momentum_ok (xs : List ℚ) (m : ℕ) (h : m + 1 ≤ xs.length) :
    pyIndex xs (-((m : ℤ) + 1)) = Except.ok (xs.getD (xs.length - (m + 1)) 0) := by
  unfold pyIndex
  have h1 : (-((m : ℤ) + 1) < 0) := by omega
  have h2 : (0 : ℤ) ≤ (xs.length : ℤ) + (-((m : ℤ) + 1))
      ∧ (xs.length : ℤ) + (-((m : ℤ) + 1)) < (xs.length : ℤ) :=
    ⟨by omega, by omega⟩
  simp only [h1, if_true, h2, and_self, if_pos]
  have h3 : ((xs.length : ℤ) + (-((m : ℤ) + 1))).toNat = xs.length - (m + 1) := by omega
  rw [h3]

theorem pySliceFromNeg_ne_nil (xs : List ℚ) (k : ℕ) (h : 1 ≤ xs.length) :
    pySliceFromNeg xs k ≠ [] := by
  unfold pySliceFromNeg
  split
  case isTrue => exact List.ne_nil_of_length_pos (by omega)
  case isFalse hk =>
    apply List.ne_nil_of_length_pos
    rw [List.length_drop]
    omega

theorem pySlicePrev_ne_nil (xs : List ℚ) (b : ℕ) (hb : 1 ≤ b) (hlen : b + 1 ≤ xs.length) :
    pySlicePrev xs b ≠ [] := by
  apply List.ne_nil_of_length_pos
  unfold pySlicePrev
  rw [List.length_drop, List.length_take]
  omega

theorem min_prices_needed_pos (b lw sw m : ℕ) : 1 ≤ min_prices_needed b lw sw m := by
  unfold min_prices_needed
  omega

/-- Bridging lemma: on inputs that pass all three validation checks and
with a positive `breakout_lookback`, `run_strategy` succeeds and returns
precisely the decision of `tradeCore`. -/
theorem run_strategy_eq_core (p v : List ℚ) (c s : ℚ) (b vl sw lw m : ℕ)
    (hlen : p.length = v.length) (hc : 0 ≤ c) (hs : 0 ≤ s) (hb : 1 ≤ b)
    (hp : min_prices_needed b lw sw m ≤ p.length)
    (hv : min_vols_needed vl ≤ v.length) :
    run_strategy p v c s b vl sw lw m = Except.ok (tradeCore p v c s b vl sw lw m) := by
  have hbp : b + 1 ≤ p.length := by
    have := hp
    unfold min_prices_needed at this
    omega
  have hp1 : 1 ≤ p.length := by omega
  have hv1 : 1 ≤ v.length := by omega
  have hm1 : m + 1 ≤ p.length := by
    have := hp
    unfold min_prices_needed at this
    omega
  unfold run_strategy
  rw [if_neg (by omega : ¬ p.length ≠ v.length)]
  rw [if_neg (by push_neg; exact ⟨hc, hs⟩ : ¬ (c < 0 ∨ s < 0))]
  rw [if_neg (by push_neg; exact ⟨hp, by omega⟩ :
        ¬ (p.length < min_prices_needed b lw sw m ∨ v.length < min_vols_needed vl))]
  rw [pyIndex_last_ok p hp1, ok_bind]
  rw [pyIndex_last_ok v hv1, ok_bind]
  rw [average_ok _ (pySliceFromNeg_ne_nil v vl hv1), ok_bind]
  rw [listMax_ok _ (pySlicePrev_ne_nil p b hb hbp), ok_bind]
  rw [average_ok _ (pySliceFromNeg_ne_nil p sw hp1), ok_bind]
  rw [average_ok _ (pySliceFromNeg_ne_nil p lw hp1), ok_bind]
  rw [pyIndex_momentum_ok p m hm1, ok_bind]
  simp only [tradeCore, recent_high_prev_n, avg_volume_n, short_ma, long_ma, momentum_n]
  split
  case isTrue => split <;> rfl
  case isFalse => split <;> rfl

theorem pyIndex_last_val (xs : List ℚ) (a : ℚ)
    (h : pyIndex xs (-1) = Except.ok a) : a = currentPrice xs := by
  unfold pyIndex at h
  have h1 : ((-1 : ℤ) < 0) := by omega
  simp only [h1, if_true] at h
  by_cases h2 : (0 : ℤ) ≤ (xs.length : ℤ) + (-1) ∧ (xs.length : ℤ) + (-1) < (xs.length : ℤ)
  · rw [if_pos h2] at h
    have h3 : ((xs.length : ℤ) + (-1)).toNat = xs.length - 1 := by omega
    cases h
    unfold currentPrice
    rw [h3]
  · rw [if_neg h2] at h
    exact Except.noConfusion h

/-- Case analysis on every successful return of `run_strategy`, over all
configurations: the result is a STOP or HOLD carrying the input portfolio
with zero shares traded, or the BUY record, or the SELL record. -/
theorem run_ok_cases (p v : List ℚ) (c s : ℚ) (b vl sw lw m : ℕ) (r : TradeResult)
    (h : run_strategy p v c s b vl sw lw m = Except.ok r) :
    (r.action = "STOP" ∧ r.shares_traded = 0 ∧ r.cash_balance = c ∧ r.shares_held = s)
    ∨ (r.action = "HOLD" ∧ r.shares_traded = 0 ∧ r.cash_balance = c ∧ r.shares_held = s)
    ∨ (r.action = "BUY" ∧ 0 < currentPrice p ∧ r.shares_traded = c / currentPrice p
        ∧ r.cash_balance = 0 ∧ r.shares_held = c / currentPrice p)
    ∨ (r.action = "SELL" ∧ 0 < s ∧ r.shares_traded = s
        ∧ r.cash_balance = s * currentPrice p ∧ r.shares_held = 0) := by
  unfold run_strategy at h
  split at h
  · cases h
    left
    exact ⟨rfl, rfl, rfl, rfl⟩
  · split at h
    · cases h
      left
      exact ⟨rfl, rfl, rfl, rfl⟩
    · split at h
      · cases h
        left
        exact ⟨rfl, rfl, rfl, rfl⟩
      · cases h1 : pyIndex p (-1) with
        | error e =>
          rw [h1, error_bind] at h
          exact Except.noConfusion h
        | ok cur =>
        simp only [h1, ok_bind] at h
        cases h2 : pyIndex v (-1) with
        | error e =>
          rw [h2, error_bind] at h
          exact Except.noConfusion h
        | ok lastv =>
        simp only [h2, ok_bind] at h
        cases h3 : average (pySliceFromNeg v vl) with
        | error e =>
          rw [h3, error_bind] at h
          exact Except.noConfusion h
        | ok av =>
        simp only [h3, ok_bind] at h
        cases h4 : listMax (pySlicePrev p b) with
        | error e =>
          rw [h4, error_bind] at h
          exact Except.noConfusion h
        | ok hi =>
        simp only [h4, ok_bind] at h
        cases h5 : average (pySliceFromNeg p sw) with
        | error e =>
          rw [h5, error_bind] at h
          exact Except.noConfusion h
        | ok sma =>
        simp only [h5, ok_bind] at h
        cases h6 : average (pySliceFromNeg p lw) with
        | error e =>
          rw [h6, error_bind] at h
          exact Except.noConfusion h
        | ok lma =>
        simp only [h6, ok_bind] at h
        cases h7 : pyIndex p (-((m : ℤ) + 1)) with
        | error e =>
          rw [h7, error_bind] at h
          exact Except.noConfusion h
        | ok pma =>
        simp only [h7, ok_bind] at h
        split at h
        next hbuy =>
          split at h
          next hneg =>
            cases h
            left
            exact ⟨rfl, rfl, rfl, rfl⟩
          next hneg =>
            cases h
            right; right; left
            have hcur := pyIndex_last_val p cur h1
            subst hcur
            exact ⟨rfl, not_le.mp hneg, rfl, rfl, rfl⟩
        next hbuy =>
          split at h
          next hsell =>
            cases h
            right; right; right
            have hcur := pyIndex_last_val p cur h1
            subst hcur
            exact ⟨rfl, hsell.1, rfl, rfl, rfl⟩
          next hsell =>
            cases h
            right; left
            exact ⟨rfl, rfl, rfl, rfl⟩

/-- C10: `run_strategy` does not validate that the windows are positive:
with `breakout_lookback = 0` and series long enough to pass every
validation check, the slice `prices[-(breakout_lookback+1):-1]` is empty
and the call raises the uncaught `max()` error instead of returning a
`TradeResult`. -/
theorem claim10_zero_breakout_raises :
    run_strategy [1] [1] 0 0 0 1 1 1 0 = Except.error ("max() arg is an empty sequence") := rfl

/-- C7: whenever `run_strategy` returns a result with action HOLD or STOP,
the result's `cash_balance` and `shares_held` equal the arguments passed in. -/
theorem claim7_hold_stop_frame (p v : List ℚ) (c s : ℚ) (b vl sw lw m : ℕ) (r : TradeResult)
    (h : run_strategy p v c s b vl sw lw m = Except.ok r)
    (ha : r.action = "HOLD" ∨ r.action = "STOP") :
    r.cash_balance = c ∧ r.shares_held = s := by
  rcases run_ok_cases p v c s b vl sw lw m r h with hc|hc|hc|hc
  · exact ⟨hc.2.2.1, hc.2.2.2⟩
  · exact ⟨hc.2.2.1, hc.2.2.2⟩
  · rcases ha with ha|ha <;> rw [hc.1] at ha <;> exact absurd ha (by decide)
  · rcases ha with ha|ha <;> rw [hc.1] at ha <;> exact absurd ha (by decide)

theorem claim7_witness :
    ({ action := "STOP", message := "Prices and volumes must be the same length",
          cash_balance := 5, shares_held := 7 } : TradeResult).cash_balance = 5
    ∧ ({ action := "STOP", message := "Prices and volumes must be the same length",
          cash_balance := 5, shares_held := 7 } : TradeResult).shares_held = 7 :=
  claim7_hold_stop_frame [1] [] 5 7 1 1 1 1 0
    { action := "STOP", message := "Prices and volumes must be the same length",
      cash_balance := 5, shares_held := 7 } rfl (Or.inr rfl)

/-- C9: whenever `run_strategy` returns a result with action HOLD or STOP,
the result's `shares_traded` is exactly 0 (the constructor's default). -/
theorem claim9_hold_stop_traded_zero (p v : List ℚ) (c s : ℚ) (b vl sw lw m : ℕ) (r : TradeResult)
    (h : run_strategy p v c s b vl sw lw m = Except.ok r)
    (ha : r.action = "HOLD" ∨ r.action = "STOP") :
    r.shares_traded = 0 := by
  rcases run_ok_cases p v c s b vl sw lw m r h with hc|hc|hc|hc
  · exact hc.2.1
  · exact hc.2.1
  · rcases ha with ha|ha <;> rw [hc.1] at ha <;> exact absurd ha (by decide)
  · rcases ha with ha|ha <;> rw [hc.1] at ha <;> exact absurd ha (by decide)

theorem claim9_witness :
    ({ action := "STOP", message := "Prices and volumes must be the same length",
          cash_balance := 3, shares_held := 4 } : TradeResult).shares_traded = 0 :=
  claim9_hold_stop_traded_zero [2] [] 3 4 1 1 1 1 0
    { action := "STOP", message := "Prices and volumes must be the same length",
      cash_balance := 3, shares_held := 4 } rfl (Or.inr rfl)

/-- C1: on inputs passing all validation checks (with positive window
configuration), `run_strategy` returns action BUY exactly when
`shares_held = 0`, the current price strictly exceeds the recent high of
the `breakout_lookback` preceding prices, the last volume strictly
exceeds twice the trailing average volume, the momentum is strictly
positive and the current price is positive; and in that case the result
is the all-in BUY record: zero cash, `cash_balance / current_price`
shares held and traded, message "ALL-IN BUY on breakout". -/
theorem claim1_buy_characterisation (p v : List ℚ) (c s : ℚ) (b vl sw lw m : ℕ)
    (hlen : p.length = v.length) (hc : 0 ≤ c) (hs : 0 ≤ s)
    (hb : 1 ≤ b) (hvl : 1 ≤ vl) (hsw : 1 ≤ sw) (hlw : 1 ≤ lw) (hm : 1 ≤ m)
    (hp : min_prices_needed b lw sw m ≤ p.length)
    (hv : min_vols_needed vl ≤ v.length) :
    (∀ r : TradeResult, run_strategy p v c s b vl sw lw m = Except.ok r →
      (r.action = "BUY" ↔ (s = 0 ∧ currentPrice p > recent_high_prev_n p b
        ∧ currentPrice v > 2 * avg_volume_n v vl ∧ momentum_n p m > 0 ∧ 0 < currentPrice p)))
    ∧ ((s = 0 ∧ currentPrice p > recent_high_prev_n p b
        ∧ currentPrice v > 2 * avg_volume_n v vl ∧ momentum_n p m > 0 ∧ 0 < currentPrice p) →
      run_strategy p v c s b vl sw lw m = Except.ok
        { action := "BUY", message := "ALL-IN BUY on breakout",
          shares_traded := c / currentPrice p, cash_balance := 0,
          shares_held := c / currentPrice p }) := by
  have hrun := run_strategy_eq_core p v c s b vl sw lw m hlen hc hs hb hp hv
  constructor
  · intro r hr
    rw [hrun] at hr
    cases hr
    unfold tradeCore
    split
    next hbuy =>
      split
      next hneg =>
        constructor
        · intro habs
          simp at habs
        · intro hcond
          exact absurd hcond.2.2.2.2 (not_lt.mpr hneg)
      next hneg =>
        constructor
        · intro _
          exact ⟨hbuy.1, hbuy.2.1, hbuy.2.2.1, hbuy.2.2.2, not_le.mp hneg⟩
        · intro _
          rfl
    next hbuy =>
      split
      next hsell =>
        constructor
        · intro habs
          simp at habs
        · intro hcond
          exact absurd ⟨hcond.1, hcond.2.1, hcond.2.2.1, hcond.2.2.2.1⟩ hbuy
      next hsell =>
        constructor
        · intro habs
          simp at habs
        · intro hcond
          exact absurd ⟨hcond.1, hcond.2.1, hcond.2.2.1, hcond.2.2.2.1⟩ hbuy
  · intro hcond
    rw [hrun]
    unfold tradeCore
    rw [if_pos ⟨hcond.1, hcond.2.1, hcond.2.2.1, hcond.2.2.2.1⟩,
        if_neg (not_le.mpr hcond.2.2.2.2)]

theorem claim1_witness :
    run_strategy [0, 1] [0, -1] 7 0 1 1 1 1 1 = Except.ok
      { action := "BUY", message := "ALL-IN BUY on breakout",
        shares_traded := 7 / currentPrice [0, 1], cash_balance := 0,
        shares_held := 7 / currentPrice [0, 1] } :=
  (claim1_buy_characterisation [0, 1] [0, -1] 7 0 1 1 1 1 1 rfl (by norm_num) le_rfl
      le_rfl le_rfl le_rfl le_rfl le_rfl (by decide) (by decide)).2
    ⟨rfl,
      by norm_num [currentPrice, recent_high_prev_n, listMaxD, pySlicePrev],
      by norm_num [currentPrice, avg_volume_n, averageD, pySliceFromNeg],
      by norm_num [momentum_n, currentPrice],
      by norm_num [currentPrice]⟩

/-- C2: on inputs passing all validation checks (with positive window
configuration), `run_strategy` returns action SELL exactly when
`shares_held > 0` and the short moving average is strictly below the long
moving average; and in that case the result is the all-out SELL record:
zero shares held, `shares_held × current_price` cash, the pre-sale share
count traded, message "SELL due to trend reversal". -/
theorem claim2_sell_characterisation (p v : List ℚ) (c s : ℚ) (b vl sw lw m : ℕ)
    (hlen : p.length = v.length) (hc : 0 ≤ c) (hs : 0 ≤ s)
    (hb : 1 ≤ b) (hvl : 1 ≤ vl) (hsw : 1 ≤ sw) (hlw : 1 ≤ lw) (hm : 1 ≤ m)
    (hp : min_prices_needed b lw sw m ≤ p.length)
    (hv : min_vols_needed vl ≤ v.length) :
    (∀ r : TradeResult, run_strategy p v c s b vl sw lw m = Except.ok r →
      (r.action = "SELL" ↔ (s > 0 ∧ short_ma p sw < long_ma p lw)))
    ∧ ((s > 0 ∧ short_ma p sw < long_ma p lw) →
      run_strategy p v c s b vl sw lw m = Except.ok
        { action := "SELL", message := "SELL due to trend reversal",
          shares_traded := s, cash_balance := s * currentPrice p, shares_held := 0 }) := by
  have hrun := run_strategy_eq_core p v c s b vl sw lw m hlen hc hs hb hp hv
  constructor
  · intro r hr
    rw [hrun] at hr
    cases hr
    unfold tradeCore
    split
    next hbuy =>
      have hns : ¬ (s > 0 ∧ short_ma p sw < long_ma p lw) := by
        intro hcond
        have h0 := hcond.1
        rw [hbuy.1] at h0
        exact absurd h0 (lt_irrefl 0)
      split
      next hneg =>
        constructor
        · intro habs
          simp at habs
        · intro hcond
          exact absurd hcond hns
      next hneg =>
        constructor
        · intro habs
          simp at habs
        · intro hcond
          exact absurd hcond hns
    next hbuy =>
      split
      next hsell =>
        constructor
        · intro _
          exact hsell
        · intro _
          rfl
      next hsell =>
        constructor
        · intro habs
          simp at habs
        · intro hcond
          exact absurd hcond hsell
  · intro hcond
    rw [hrun]
    unfold tradeCore
    have hnb : ¬ (s = 0 ∧ currentPrice p > recent_high_prev_n p b
        ∧ currentPrice v > 2 * avg_volume_n v vl ∧ momentum_n p m > 0) := by
      intro hbg
      have h0 := hcond.1
      rw [hbg.1] at h0
      exact absurd h0 (lt_irrefl 0)
    rw [if_neg hnb, if_pos hcond]

theorem claim2_witness :
    run_strategy [2, 1] [1, 1] 0 3 1 1 1 2 1 = Except.ok
      { action := "SELL", message := "SELL due to trend reversal",
        shares_traded := 3, cash_balance := 3 * currentPrice [2, 1], shares_held := 0 } :=
  (claim2_sell_characterisation [2, 1] [1, 1] 0 3 1 1 1 2 1 rfl le_rfl (by norm_num)
      le_rfl le_rfl le_rfl (by norm_num) le_rfl (by decide) (by decide)).2
    ⟨by norm_num,
      by norm_num [short_ma, long_ma, averageD, pySliceFromNeg]⟩

/-- C3 counterexample: the claim admits *any* scalar `cash_balance`, but
with equal-length series of sufficient length and `cash_balance = -1` the
result is a STOP carrying the negative cash balance; and even with
non-negative balances, a negative current price makes the SELL rule
return a negative `cash_balance`.  Either input alone refutes the claimed
non-negativity of the result fields. -/
theorem claim3_counterexample :
    (run_strategy (List.replicate 21 1) (List.replicate 21 1) (-1) 0 20 20 5 15 5 = Except.ok
      { action := "STOP", message := "cash_balance and shares_held must be non-negative",
        cash_balance := -1, shares_held := 0 }
    ∧ run_strategy [0, -1] [1, 1] 0 1 1 1 1 2 1 = Except.ok
      { action := "SELL", message := "SELL due to trend reversal",
        shares_traded := 1, cash_balance := -1, shares_held := 0 })
    ∧ ((-1 : ℚ) < 0) :=
  ⟨⟨rfl, by
    norm_num +decide [run_strategy, pyIndex, average, listMax, pySliceFromNeg, pySlicePrev,
      min_prices_needed, min_vols_needed, ok_bind]⟩, by norm_num⟩

/-- C3 (amended): for equal-length series meeting the minimum-length
requirement and positive window configuration, `run_strategy` returns a
result whose action is exactly one of BUY, SELL, HOLD, STOP; and provided
the input `cash_balance` and `shares_held` are non-negative and the
current (last) price is non-negative, the result's `cash_balance` and
`shares_held` are both non-negative. -/
theorem claim3_action_enum_nonneg (p v : List ℚ) (c s : ℚ) (b vl sw lw m : ℕ)
    (hlen : p.length = v.length)
    (hb : 1 ≤ b) (hvl : 1 ≤ vl) (hsw : 1 ≤ sw) (hlw : 1 ≤ lw) (hm : 1 ≤ m)
    (hp : min_prices_needed b lw sw m ≤ p.length)
    (hv : min_vols_needed vl ≤ v.length) :
    ∃ r : TradeResult, run_strategy p v c s b vl sw lw m = Except.ok r
      ∧ (r.action = "BUY" ∨ r.action = "SELL" ∨ r.action = "HOLD" ∨ r.action = "STOP")
      ∧ (0 ≤ c → 0 ≤ s → 0 ≤ currentPrice p → 0 ≤ r.cash_balance ∧ 0 ≤ r.shares_held) := by
  by_cases hneg : c < 0 ∨ s < 0
  · have hrun : run_strategy p v c s b vl sw lw m = Except.ok
        { action := "STOP", message := "cash_balance and shares_held must be non-negative",
          cash_balance := c, shares_held := s } := by
      unfold run_strategy
      rw [if_neg (not_not_intro hlen), if_pos hneg]
    refine ⟨_, hrun, Or.inr (Or.inr (Or.inr rfl)), ?_⟩
    intro hcq hsq _
    exact ⟨hcq, hsq⟩
  · push_neg at hneg
    have hrun := run_strategy_eq_core p v c s b vl sw lw m hlen hneg.1 hneg.2 hb hp hv
    rcases run_ok_cases p v c s b vl sw lw m _ hrun with hk|hk|hk|hk
    · refine ⟨_, hrun, Or.inr (Or.inr (Or.inr hk.1)), ?_⟩
      intro hcq hsq _
      rw [hk.2.2.1, hk.2.2.2]
      exact ⟨hcq, hsq⟩
    · refine ⟨_, hrun, Or.inr (Or.inr (Or.inl hk.1)), ?_⟩
      intro hcq hsq _
      rw [hk.2.2.1, hk.2.2.2]
      exact ⟨hcq, hsq⟩
    · refine ⟨_, hrun, Or.inl hk.1, ?_⟩
      intro hcq hsq _
      rw [hk.2.2.2.1, hk.2.2.2.2]
      exact ⟨le_refl 0, div_nonneg hcq (le_of_lt hk.2.1)⟩
    · refine ⟨_, hrun, Or.inr (Or.inl hk.1), ?_⟩
      intro hcq hsq hcp
      rw [hk.2.2.2.1, hk.2.2.2.2]
      exact ⟨mul_nonneg hsq hcp, le_refl 0⟩

theorem claim3_witness :
    ∃ r : TradeResult, run_strategy [1, 2] [1, 2] 1 0 1 1 1 1 1 = Except.ok r
      ∧ (r.action = "BUY" ∨ r.action = "SELL" ∨ r.action = "HOLD" ∨ r.action = "STOP")
      ∧ (0 ≤ (1 : ℚ) → 0 ≤ (0 : ℚ) → 0 ≤ currentPrice [1, 2] →
          0 ≤ r.cash_balance ∧ 0 ≤ r.shares_held) :=
  claim3_action_enum_nonneg [1, 2] [1, 2] 1 0 1 1 1 1 1 rfl
    le_rfl le_rfl le_rfl le_rfl le_rfl (by decide) (by decide)

/-- C4: under full validation and positive windows, every slice fed to
`average` or `max` inside `run_strategy` is nonempty, both negative
indexings are in range, and `run_strategy` returns a `TradeResult`
(`Except.ok`) rather than an error. -/
theorem claim4_no_exception (p v : List ℚ) (c s : ℚ) (b vl sw lw m : ℕ)
    (hlen : p.length = v.length) (hc : 0 ≤ c) (hs : 0 ≤ s)
    (hb : 1 ≤ b) (hvl : 1 ≤ vl) (hsw : 1 ≤ sw) (hlw : 1 ≤ lw) (hm : 1 ≤ m)
    (hp : min_prices_needed b lw sw m ≤ p.length)
    (hv : min_vols_needed vl ≤ v.length) :
    pySlicePrev p b ≠ [] ∧ pySliceFromNeg v vl ≠ [] ∧ pySliceFromNeg p sw ≠ []
    ∧ pySliceFromNeg p lw ≠ []
    ∧ pyIndex p (-1) = Except.ok (currentPrice p)
    ∧ pyIndex v (-1) = Except.ok (currentPrice v)
    ∧ pyIndex p (-((m : ℤ) + 1)) = Except.ok (p.getD (p.length - (m + 1)) 0)
    ∧ ∃ r : TradeResult, run_strategy p v c s b vl sw lw m = Except.ok r := by
  have hbp : b + 1 ≤ p.length := by
    have := hp
    unfold min_prices_needed at this
    omega
  have hm1 : m + 1 ≤ p.length := by
    have := hp
    unfold min_prices_needed at this
    omega
  have hp1 : 1 ≤ p.length := by omega
  have hv1 : 1 ≤ v.length := by omega
  exact ⟨pySlicePrev_ne_nil p b hb hbp, pySliceFromNeg_ne_nil v vl hv1,
    pySliceFromNeg_ne_nil p sw hp1, pySliceFromNeg_ne_nil p lw hp1,
    pyIndex_last_ok p hp1, pyIndex_last_ok v hv1, pyIndex_momentum_ok p m hm1,
    ⟨_, run_strategy_eq_core p v c s b vl sw lw m hlen hc hs hb hp hv⟩⟩

theorem claim4_witness :
    pySlicePrev [1, 2] 1 ≠ [] ∧ pySliceFromNeg [1, 2] 1 ≠ [] ∧ pySliceFromNeg [1, 2] 1 ≠ []
    ∧ pySliceFromNeg [1, 2] 1 ≠ []
    ∧ pyIndex [1, 2] (-1) = Except.ok (currentPrice [1, 2])
    ∧ pyIndex [1, 2] (-1) = Except.ok (currentPrice [1, 2])
    ∧ pyIndex [1, 2] (-((1 : ℤ) + 1)) = Except.ok (List.getD [1, 2] ([1, 2].length - (1 + 1)) 0)
    ∧ ∃ r : TradeResult, run_strategy [1, 2] [1, 2] 1 0 1 1 1 1 1 = Except.ok r :=
  claim4_no_exception [1, 2] [1, 2] 1 0 1 1 1 1 1 rfl (by norm_num) le_rfl
    le_rfl le_rfl le_rfl le_rfl le_rfl (by decide) (by decide)

/-- C5: every business-rule validation failure is reported as a returned
STOP `TradeResult` with the corresponding message, checked in the fixed
source order with the first failing check determining the message, and
every STOP result carries the input `cash_balance` and `shares_held`
unchanged. -/
theorem claim5_stop_reporting (p v : List ℚ) (c s : ℚ) (b vl sw lw m : ℕ) (hb : 1 ≤ b) :
    (p.length ≠ v.length → run_strategy p v c s b vl sw lw m = Except.ok
        { action := "STOP", message := "Prices and volumes must be the same length",
          cash_balance := c, shares_held := s })
    ∧ (p.length = v.length → (c < 0 ∨ s < 0) → run_strategy p v c s b vl sw lw m = Except.ok
        { action := "STOP", message := "cash_balance and shares_held must be non-negative",
          cash_balance := c, shares_held := s })
    ∧ (p.length = v.length → 0 ≤ c → 0 ≤ s →
        (p.length < min_prices_needed b lw sw m ∨ v.length < min_vols_needed vl) →
        run_strategy p v c s b vl sw lw m = Except.ok
          { action := "STOP",
            message := "Not enough data (need at least "
              ++ toString (min_prices_needed b lw sw m)
              ++ " prices and " ++ toString (min_vols_needed vl) ++ " volumes)",
            cash_balance := c, shares_held := s })
    ∧ (p.length = v.length → 0 ≤ c → 0 ≤ s → min_prices_needed b lw sw m ≤ p.length →
        min_vols_needed vl ≤ v.length →
        (s = 0 ∧ currentPrice p > recent_high_prev_n p b
          ∧ currentPrice v > 2 * avg_volume_n v vl ∧ momentum_n p m > 0) →
        currentPrice p ≤ 0 →
        run_strategy p v c s b vl sw lw m = Except.ok
          { action := "STOP", message := "Invalid current price (must be > 0) for buying",
            cash_balance := c, shares_held := s })
    ∧ (∀ r : TradeResult, run_strategy p v c s b vl sw lw m = Except.ok r →
        r.action = "STOP" → r.shares_traded = 0 ∧ r.cash_balance = c ∧ r.shares_held = s) := by
  refine ⟨?_, ?_, ?_, ?_, ?_⟩
  · intro h
    unfold run_strategy
    rw [if_pos h]
  · intro hlen hneg
    unfold run_strategy
    rw [if_neg (not_not_intro hlen), if_pos hneg]
  · intro hlen hc hs hshort
    unfold run_strategy
    rw [if_neg (not_not_intro hlen), if_neg (by push_neg; exact ⟨hc, hs⟩ : ¬ (c < 0 ∨ s < 0)),
        if_pos hshort]
  · intro hlen hc hs hp hv hguard hle
    rw [run_strategy_eq_core p v c s b vl sw lw m hlen hc hs hb hp hv]
    unfold tradeCore
    rw [if_pos hguard, if_pos hle]
  · intro r h hstop
    rcases run_ok_cases p v c s b vl sw lw m r h with hk|hk|hk|hk
    · exact ⟨hk.2.1, hk.2.2.1, hk.2.2.2⟩
    · rw [hk.1] at hstop
      exact absurd hstop (by decide)
    · rw [hk.1] at hstop
      exact absurd hstop (by decide)
    · rw [hk.1] at hstop
      exact absurd hstop (by decide)

theorem claim5_witness :
    run_strategy [3] [] 2 1 1 1 1 1 0 = Except.ok
      { action := "STOP", message := "Prices and volumes must be the same length",
        cash_balance := 2, shares_held := 1 } :=
  (claim5_stop_reporting [3] [] 2 1 1 1 1 1 0 le_rfl).1 (by decide)

theorem ne_not_enough_of_head (msg : String) (a k : ℕ)
    (hq : msg.data.head? ≠ some 'N') :
    msg ≠ "Not enough data (need at least " ++ toString a ++ " prices and "
      ++ toString k ++ " volumes)" := by
  intro h
  apply hq
  rw [h]
  rfl

/-- C6: with equal-length series, non-negative balances and positive
windows, `run_strategy` returns the insufficient-history STOP (whose
message names both minimum counts) exactly when the price series is
shorter than `max(breakout_lookback+1, long_window, short_window,
momentum_days+1)` or the volume series is shorter than
`max(vol_lookback, 1)`; with the default configuration, length-19 series
produce the STOP message naming 21 and 20. -/
theorem claim6_not_enough_data (p v : List ℚ) (c s : ℚ) (b vl sw lw m : ℕ)
    (hlen : p.length = v.length) (hc : 0 ≤ c) (hs : 0 ≤ s) (hb : 1 ≤ b) :
    ((run_strategy p v c s b vl sw lw m = Except.ok
        { action := "STOP",
          message := "Not enough data (need at least "
            ++ toString (min_prices_needed b lw sw m)
            ++ " prices and " ++ toString (min_vols_needed vl) ++ " volumes)",
          cash_balance := c, shares_held := s })
      ↔ (p.length < min_prices_needed b lw sw m ∨ v.length < min_vols_needed vl))
    ∧ run_strategy (List.replicate 19 1) (List.replicate 19 1) c s 20 20 5 15 5 = Except.ok
        { action := "STOP", message := "Not enough data (need at least 21 prices and 20 volumes)",
          cash_balance := c, shares_held := s } := by
  constructor
  · constructor
    · intro heq
      by_cases hsuff : p.length < min_prices_needed b lw sw m ∨ v.length < min_vols_needed vl
      · exact hsuff
      · exfalso
        push_neg at hsuff
        have hrun := run_strategy_eq_core p v c s b vl sw lw m hlen hc hs hb hsuff.1 hsuff.2
        rw [hrun] at heq
        injection heq with h2
        unfold tradeCore at h2
        split at h2
        · split at h2
          · exact ne_not_enough_of_head "Invalid current price (must be > 0) for buying" _ _
              (by decide) (congrArg TradeResult.message h2)
          · exact ne_not_enough_of_head "ALL-IN BUY on breakout" _ _
              (by decide) (congrArg TradeResult.message h2)
        · split at h2
          · exact ne_not_enough_of_head "SELL due to trend reversal" _ _
              (by decide) (congrArg TradeResult.message h2)
          · exact ne_not_enough_of_head "Holding position" _ _
              (by decide) (congrArg TradeResult.message h2)
    · intro hshort
      unfold run_strategy
      rw [if_neg (not_not_intro hlen), if_neg (by push_neg; exact ⟨hc, hs⟩ : ¬ (c < 0 ∨ s < 0)),
          if_pos hshort]
  · unfold run_strategy
    rw [if_neg (by simp : ¬ (List.replicate 19 (1 : ℚ)).length ≠ (List.replicate 19 (1 : ℚ)).length),
        if_neg (by push_neg; exact ⟨hc, hs⟩ : ¬ (c < 0 ∨ s < 0)),
        if_pos (by decide : (List.replicate 19 (1 : ℚ)).length < min_prices_needed 20 15 5 5
          ∨ (List.replicate 19 (1 : ℚ)).length < min_vols_needed 20)]
    rfl

theorem claim6_witness :
    run_strategy [1] [1] 0 0 1 3 1 1 0 = Except.ok
      { action := "STOP",
        message := "Not enough data (need at least "
          ++ toString (min_prices_needed 1 1 1 0)
          ++ " prices and " ++ toString (min_vols_needed 3) ++ " volumes)",
        cash_balance := 0, shares_held := 0 } :=
  (claim6_not_enough_data [1] [1] 0 0 1 3 1 1 0 rfl le_rfl le_rfl le_rfl).1.mpr
    (by decide)

/-- C8: the BUY and SELL guards are mutually exclusive (`shares_held = 0`
versus `shares_held > 0`), and the variant of `run_strategy` that
evaluates the SELL rule before the BUY rule returns an identical result
on every input. -/
theorem claim8_rule_order_irrelevant (p v : List ℚ) (c s : ℚ) (b vl sw lw m : ℕ) :
    (¬ ((s = 0 ∧ currentPrice p > recent_high_prev_n p b
          ∧ currentPrice v > 2 * avg_volume_n v vl ∧ momentum_n p m > 0)
        ∧ (s > 0 ∧ short_ma p sw < long_ma p lw)))
    ∧ run_strategy_sell_first p v c s b vl sw lw m = run_strategy p v c s b vl sw lw m := by
  constructor
  · intro hboth
    have h0 := hboth.2.1
    rw [hboth.1.1] at h0
    exact absurd h0 (lt_irrefl 0)
  · unfold run_strategy_sell_first run_strategy
    by_cases h1 : p.length ≠ v.length
    · rw [if_pos h1, if_pos h1]
    · rw [if_neg h1, if_neg h1]
      by_cases h2 : c < 0 ∨ s < 0
      · rw [if_pos h2, if_pos h2]
      · rw [if_neg h2, if_neg h2]
        by_cases h3 : p.length < min_prices_needed b lw sw m ∨ v.length < min_vols_needed vl
        · rw [if_pos h3, if_pos h3]
        · rw [if_neg h3, if_neg h3]
          cases hq1 : pyIndex p (-1) with
          | error e => rw [error_bind, error_bind]
          | ok cur =>
          simp only [hq1, ok_bind]
          cases hq2 : pyIndex v (-1) with
          | error e => rw [error_bind, error_bind]
          | ok lastv =>
          simp only [hq2, ok_bind]
          cases hq3 : average (pySliceFromNeg v vl) with
          | error e => rw [error_bind, error_bind]
          | ok av =>
          simp only [hq3, ok_bind]
          cases hq4 : listMax (pySlicePrev p b) with
          | error e => rw [error_bind, error_bind]
          | ok hi =>
          simp only [hq4, ok_bind]
          cases hq5 : average (pySliceFromNeg p sw) with
          | error e => rw [error_bind, error_bind]
          | ok sma =>
          simp only [hq5, ok_bind]
          cases hq6 : average (pySliceFromNeg p lw) with
          | error e => rw [error_bind, error_bind]
          | ok lma =>
          simp only [hq6, ok_bind]
          cases hq7 : pyIndex p (-((m : ℤ) + 1)) with
          | error e => rw [error_bind, error_bind]
          | ok pma =>
          simp only [hq7, ok_bind]
          by_cases hsg : s > 0 ∧ sma < lma
          · rw [if_pos hsg]
            by_cases hbg : s = 0 ∧ cur > hi ∧ lastv > 2 * av ∧ cur - pma > 0
            · exfalso
              have h0 := hsg.1
              rw [hbg.1] at h0
              exact absurd h0 (lt_irrefl 0)
            · rw [if_neg hbg, if_pos hsg]
          · rw [if_neg hsg]
            by_cases hbg : s = 0 ∧ cur > hi ∧ lastv > 2 * av ∧ cur - pma > 0
            · rw [if_pos hbg, if_pos hbg]
            · rw [if_neg hbg, if_neg hbg, if_neg hsg]
